import Mathlib

/-
Verification of the City Events Service (a stateless FastAPI proxy over the
Ticketmaster discovery API, src/app.py) against its specification.

The embedding models:
  - JSON values as an inductive type `Json`;
  - Python dictionary access: `d[k]` raises KeyError when the key is absent
    (`pyIndex`), `d.get(k)` returns None for an absent key and raises
    AttributeError on a non-dict (`pyGet`), iteration (`pyIter`);
  - pydantic v1 field validation for `str` and implicitly-optional
    `str = None` fields (`pydStr`, `pydOptStr`), including the numeric and
    boolean coercions pydantic v1 performs, and the AnyHttpUrl scheme check
    (`validate_links`); a failure is a `PyError.validationError`, distinct
    from KeyError and AttributeError, because src/app.py registers an
    exception handler only for ValidationError;
  - the source functions `get_events_from_ticketmaster`, `construct_response`,
    `get_city_events`, `handle_central_exception` and `health_check`, and the
    routing layer (`app_handle`), with the network as an oracle parameter
    `net : String -> UpstreamResponse`.
Pydantic v1 in fact collects every field error into one ValidationError; the
model stops at the first failing field, which preserves the error class and
the non-emptiness of the message, the only observables the claims use.
-/

inductive Json where
  | null : Json
  | bool (b : Bool) : Json
  | num (n : Int) : Json
  | str (s : String) : Json
  | arr (items : List Json) : Json
  | obj (fields : List (String × Json)) : Json

inductive PyError where
  | keyError (key : String)
  | typeError (msg : String)
  | attributeError (msg : String)
  | validationError (msg : String)

def lookupKV (kvs : List (String × Json)) (k : String) : Option Json :=
  (List.find? (fun p => p.1 = k) kvs).map (fun p => p.2)

def Json.lookup : Json → String → Option Json
  | .obj kvs, k => lookupKV kvs k
  | _, _ => none

/-- Python subscript `d[k]`: KeyError when the key is absent, TypeError when
the value is not a dict. -/
def pyIndex (j : Json) (k : String) : Except PyError Json :=
  match j with
  | .obj kvs =>
    match lookupKV kvs k with
    | some v => .ok v
    | none => .error (.keyError k)
  | _ => .error (.typeError "object is not subscriptable")

/-- Python `d.get(k)`: None when the key is absent, AttributeError when the
receiver is not a dict. -/
def pyGet (j : Json) (k : String) : Except PyError Json :=
  match j with
  | .obj kvs => .ok ((lookupKV kvs k).getD .null)
  | _ => .error (.attributeError "object has no attribute get")

/-- The value `d.get(k)` yields on a dict: the stored value, or None. -/
def pyGetD (j : Json) (k : String) : Json :=
  (j.lookup k).getD .null

/-- Python iteration: lists yield their items, strings their characters,
dicts their keys; other values raise TypeError. -/
def pyIter (j : Json) : Except PyError (List Json) :=
  match j with
  | .arr xs => .ok xs
  | .str s => .ok (s.data.map (fun c => .str (String.singleton c)))
  | .obj kvs => .ok (kvs.map (fun p => Json.str p.1))
  | _ => .error (.typeError "object is not iterable")

/-- pydantic v1 validation of a required `str` field: strings pass through,
numbers and booleans are coerced to their string form, None and structured
values are rejected. -/
def pydStr (j : Json) : Except PyError String :=
  match j with
  | .str s => .ok s
  | .num n => .ok (toString n)
  | .bool b => .ok (if b then "True" else "False")
  | .null => .error (.validationError "none is not an allowed value")
  | _ => .error (.validationError "str type expected")

/-- pydantic v1 validation of a `str = None` field (implicitly Optional). -/
def pydOptStr (j : Json) : Except PyError (Option String) :=
  match j with
  | .null => .ok none
  | j => Except.map some (pydStr j)

/-- pydantic AnyHttpUrl: the scheme must be http or https and a host must
follow. -/
def prefixCheck : List Char → List Char → Bool
  | [], rest => !rest.isEmpty
  | _ :: _, [] => false
  | p :: ps, c :: cs => p = c && prefixCheck ps cs

def isHttpUrl (s : String) : Bool :=
  prefixCheck "http://".data s.data || prefixCheck "https://".data s.data

/- Data model of src/app.py: Links, Event, OutputModel.  In pydantic v1 the
declarations `name: str = None` and `url: str = None` make those two fields
Optional, while `id: str` is required. -/

structure Links where
  self : String

structure Event where
  name : Option String
  id : String
  url : Option String

structure OutputModel where
  links : Links
  events : List Event

structure UpstreamResponse where
  status_code : Nat
  body : Json

structure HttpResponse where
  status_code : Nat
  body : Json

structure HttpRequest where
  path : String
  url : String
  query : List (String × String)

/-- Sequential effectful map: the Python list comprehension, stopping at the
first raised exception. -/
def mapExcept (f : α → Except PyError β) : List α → Except PyError (List β)
  | [] => .ok []
  | x :: xs =>
    match f x with
    | .error e => .error e
    | .ok y =>
      match mapExcept f xs with
      | .error e => .error e
      | .ok ys => .ok (y :: ys)

def TICKETMASTER_DISCOVERY : String :=
  "https://app.ticketmaster.com/discovery/v2/events.json"

/-- URL built by get_events_from_ticketmaster in src/app.py: the base query
carries apikey and city; the Python truthiness test `if postal_code:` appends
postalCode only for a present, non-empty postal code. -/
def ticketmaster_url (api_key city : String) (postal_code : Option String) : String :=
  let url := TICKETMASTER_DISCOVERY ++ "?apikey=" ++ api_key ++ "&city=" ++ city
  match postal_code with
  | some pc => if pc = "" then url else url ++ "&postalCode=" ++ pc
  | none => url

/-- get_events_from_ticketmaster from src/app.py: a single GET against the
discovery endpoint, returning the raw response; the network is the oracle
`net`. -/
def get_events_from_ticketmaster (net : String → UpstreamResponse)
    (api_key city : String) (postal_code : Option String) : UpstreamResponse :=
  net (ticketmaster_url api_key city postal_code)

/-- The dict literal built for one event inside the list comprehension of
construct_response: the three `event.get` calls, in source order. -/
def event_fields (ev : Json) : Except PyError (Json × Json × Json) :=
  match pyGet ev "name" with
  | .error e => .error e
  | .ok n =>
    match pyGet ev "id" with
    | .error e => .error e
    | .ok i =>
      match pyGet ev "url" with
      | .error e => .error e
      | .ok u => .ok (n, i, u)

/-- pydantic validation of one Event model, fields in declaration order
name, id, url. -/
def validate_event (t : Json × Json × Json) : Except PyError Event :=
  match pydOptStr t.1 with
  | .error e => .error e
  | .ok name =>
    match pydStr t.2.1 with
    | .error e => .error e
    | .ok idv =>
      match pydOptStr t.2.2 with
      | .error e => .error e
      | .ok url => .ok ⟨name, idv, url⟩

/-- pydantic validation of the Links model: self is an AnyHttpUrl. -/
def validate_links (u : String) : Except PyError Links :=
  if isHttpUrl u then .ok ⟨u⟩ else .error (.validationError "invalid or missing URL scheme")

/-- construct_response from src/app.py.  The subscripts on _embedded and
events run first (inside the list comprehension argument), then the dict
literals are built via `event.get`, then pydantic validates OutputModel in
field order: links, then each event in order. -/
def construct_response (request_url : String) (resp_json : Json) : Except PyError OutputModel :=
  match pyIndex resp_json "_embedded" with
  | .error e => .error e
  | .ok emb =>
    match pyIndex emb "events" with
    | .error e => .error e
    | .ok evs =>
      match pyIter evs with
      | .error e => .error e
      | .ok items =>
        match mapExcept event_fields items with
        | .error e => .error e
        | .ok raws =>
          match validate_links request_url with
          | .error e => .error e
          | .ok links =>
            match mapExcept validate_event raws with
            | .error e => .error e
            | .ok events => .ok ⟨links, events⟩

/-- The embedded events collection, when the upstream body carries one: used
only to state claims about bodies that contain the collection. -/
def embeddedEvents (j : Json) : Option (List Json) :=
  match j.lookup "_embedded" with
  | some emb =>
    match emb.lookup "events" with
    | some (.arr items) => some items
    | _ => none
  | none => none

/-- Serialization of one Event, fields in declaration order; absent optional
fields serialize as null. -/
def Event.toJson (e : Event) : Json :=
  .obj [("name", match e.name with | some s => .str s | none => .null),
        ("id", .str e.id),
        ("url", match e.url with | some s => .str s | none => .null)]

def OutputModel.toJson (o : OutputModel) : Json :=
  .obj [("links", .obj [("self", .str o.links.self)]),
        ("events", .arr (o.events.map Event.toJson))]

/-- The query parameters declared by get_city_events in src/app.py, with
their required flag: api_key and city are required, postal_code optional.
No search_id parameter is declared. -/
def city_events_query_params : List (String × Bool) :=
  [("api_key", true), ("city", true), ("postal_code", false)]

/-- The extra response statuses declared in the route decorator of
get_city_events (the `responses` mapping documents 401, Invalid APIKey). -/
def city_events_declared_statuses : List Nat := [401]

/-- Models the FastAPI framework layer: extraction of the query parameters
declared by get_city_events.  A missing required parameter raises a
validation error carrying a non-empty message; parameters that are not
declared are ignored. -/
def validate_query (q : List (String × String)) :
    Except PyError (String × String × Option String) :=
  match List.find? (fun p => p.1 = "api_key") q with
  | none => .error (.validationError "api_key: field required")
  | some a =>
    match List.find? (fun p => p.1 = "city") q with
    | none => .error (.validationError "city: field required")
    | some c =>
      .ok (a.2, c.2, (List.find? (fun p => p.1 = "postal_code") q).map (fun p => p.2))

/-- get_city_events from src/app.py: call the upstream client, then translate
the body.  The upstream status code is never inspected. -/
def get_city_events (net : String → UpstreamResponse) (request_url : String)
    (api_key city : String) (postal_code : Option String) : Except PyError OutputModel :=
  construct_response request_url
    (get_events_from_ticketmaster net api_key city postal_code).body

/-- handle_central_exception from src/app.py: a ValidationError becomes a 422
JSON response whose detail list holds the message. -/
def handle_central_exception (msg : String) : HttpResponse :=
  ⟨422, .obj [("detail", .arr [.obj [("msg", .str msg)]])]⟩

/-- health_check from src/app.py. -/
def health_check : HttpResponse :=
  ⟨200, .obj [("status", .str "pass")]⟩

/-- An exception with no registered handler surfaces as the generic server
error of the framework. -/
def serverError : HttpResponse :=
  ⟨500, .str "Internal Server Error"⟩

/-- The /city_events/ endpoint: framework parameter validation, then the
handler; a ValidationError (from either stage) reaches
handle_central_exception, every other exception surfaces as a generic 500. -/
def city_events_endpoint (net : String → UpstreamResponse) (url : String)
    (query : List (String × String)) : HttpResponse :=
  match validate_query query with
  | .error (.validationError m) => handle_central_exception m
  | .error _ => serverError
  | .ok (a, c, pc) =>
    match get_city_events net url a c pc with
    | .ok out => ⟨200, out.toJson⟩
    | .error (.validationError m) => handle_central_exception m
    | .error _ => serverError

/-- Routing of the FastAPI app object of src/app.py. -/
def app_handle (net : String → UpstreamResponse) (req : HttpRequest) : HttpResponse :=
  if req.path = "/health_check" then health_check
  else if req.path = "/city_events/" then city_events_endpoint net req.url req.query
  else ⟨404, .obj [("detail", .str "Not Found")]⟩

/- Concrete fixtures used by witnesses and counterexamples. -/

/-- A Ticketmaster fault body, the shape the upstream returns with a 401. -/
def fault_body : Json :=
  Json.obj [("fault", Json.obj
    [("faultstring", Json.str "Invalid ApiKey"),
     ("detail", Json.obj [("errorcode", Json.str "oauth.v2.InvalidApiKey")])])]

/-- An upstream that always answers 401 with the fault body. -/
def net401 : String → UpstreamResponse := fun _ => ⟨401, fault_body⟩

/-- An upstream that always answers 200 with an empty embedded events list. -/
def netOkW : String → UpstreamResponse :=
  fun _ => ⟨200, Json.obj [("_embedded", Json.obj [("events", Json.arr [])])]⟩

/-- An upstream that always answers 200 with a null body. -/
def netNullW : String → UpstreamResponse := fun _ => ⟨200, Json.null⟩

def wItems : List Json :=
  [Json.obj [("name", Json.str "Concert"), ("id", Json.str "e1"),
             ("url", Json.str "http://t/1"), ("type", Json.str "event")],
   Json.obj [("id", Json.str "e2")]]

def wBody : Json := Json.obj [("_embedded", Json.obj [("events", Json.arr wItems)])]

def wOut : OutputModel :=
  ⟨⟨"http://h/ce"⟩, [⟨some "Concert", "e1", some "http://t/1"⟩, ⟨none, "e2", none⟩]⟩

def wBody200 : Json :=
  Json.obj [("links", Json.obj [("self", Json.str "http://h/ce")]),
            ("events", Json.arr [])]

def wBadItems : List Json := [Json.obj [("name", Json.str "NoIdEvent")]]

def wBadBody : Json :=
  Json.obj [("_embedded", Json.obj [("events", Json.arr wBadItems)])]

theorem mapExcept_ok {α β : Type} {f : α → Except PyError β} {xs : List α} {ys : List β}
    (h : mapExcept f xs = Except.ok ys) :
    ys.length = xs.length ∧
      ∀ i (h1 : i < xs.length) (h2 : i < ys.length),
        f (xs.get ⟨i, h1⟩) = Except.ok (ys.get ⟨i, h2⟩) := by
  induction xs generalizing ys with
  | nil =>
    unfold mapExcept at h
    injection h with h
    subst h
    exact ⟨rfl, fun i h1 _ => absurd h1 (by simp)⟩
  | cons x xs ih =>
    unfold mapExcept at h
    cases hf : f x with
    | error e => simp only [hf] at h; exact Except.noConfusion h
    | ok y =>
      simp only [hf] at h
      cases hm : mapExcept f xs with
      | error e => simp only [hm] at h; exact Except.noConfusion h
      | ok ys0 =>
        simp only [hm] at h
        injection h with h
        subst h
        obtain ⟨hl, hp⟩ := ih hm
        refine ⟨by simp [hl], ?_⟩
        intro i h1 h2
        cases i with
        | zero => exact hf
        | succ n =>
          exact hp n (by simpa using h1) (by simpa using h2)

theorem mapExcept_error {α β : Type} {f : α → Except PyError β} {xs : List α} {e : PyError}
    (h : mapExcept f xs = Except.error e) :
    ∃ x, x ∈ xs ∧ f x = Except.error e := by
  induction xs with
  | nil => unfold mapExcept at h; exact Except.noConfusion h
  | cons x xs ih =>
    unfold mapExcept at h
    cases hf : f x with
    | error e0 =>
      simp only [hf] at h
      injection h with h
      subst h
      exact ⟨x, by simp, hf⟩
    | ok y =>
      simp only [hf] at h
      cases hm : mapExcept f xs with
      | error e0 =>
        simp only [hm] at h
        injection h with h
        subst h
        obtain ⟨z, hz, hfz⟩ := ih hm
        exact ⟨z, by simp [hz], hfz⟩
      | ok ys => simp only [hm] at h; exact Except.noConfusion h

theorem mapExcept_all_ok {α β : Type} {f : α → Except PyError β} {xs : List α}
    (h : ∀ x ∈ xs, ∃ y, f x = Except.ok y) :
    ∃ ys, mapExcept f xs = Except.ok ys := by
  induction xs with
  | nil => exact ⟨[], rfl⟩
  | cons x xs ih =>
    obtain ⟨y, hy⟩ := h x (by simp)
    obtain ⟨ys, hys⟩ := ih (fun z hz => h z (by simp [hz]))
    exact ⟨y :: ys, by unfold mapExcept; simp only [hy, hys]⟩

theorem mapExcept_ok_mem {α β : Type} {f : α → Except PyError β} {xs : List α} {ys : List β}
    (h : mapExcept f xs = Except.ok ys) {x : α} (hx : x ∈ xs) :
    ∃ y, y ∈ ys ∧ f x = Except.ok y := by
  induction xs generalizing ys with
  | nil => simp at hx
  | cons a xs ih =>
    unfold mapExcept at h
    cases hf : f a with
    | error e => simp only [hf] at h; exact Except.noConfusion h
    | ok y =>
      simp only [hf] at h
      cases hm : mapExcept f xs with
      | error e => simp only [hm] at h; exact Except.noConfusion h
      | ok ys0 =>
        simp only [hm] at h
        injection h with h
        subst h
        rcases List.mem_cons.mp hx with hx | hx
        · subst hx; exact ⟨y, by simp, hf⟩
        · obtain ⟨z, hz, hfz⟩ := ih hm hx
          exact ⟨z, by simp [hz], hfz⟩

theorem pyIndex_ok_iff {j : Json} {k : String} {v : Json} :
    pyIndex j k = Except.ok v ↔ Json.lookup j k = some v := by
  cases j with
  | obj kvs =>
    unfold pyIndex Json.lookup
    cases h : lookupKV kvs k <;> simp [h]
  | null => simp [pyIndex, Json.lookup]
  | bool b => simp [pyIndex, Json.lookup]
  | num n => simp [pyIndex, Json.lookup]
  | str s => simp [pyIndex, Json.lookup]
  | arr xs => simp [pyIndex, Json.lookup]

theorem event_fields_obj (kvs : List (String × Json)) :
    event_fields (Json.obj kvs) =
      Except.ok (pyGetD (Json.obj kvs) "name", pyGetD (Json.obj kvs) "id",
        pyGetD (Json.obj kvs) "url") := rfl

theorem event_fields_ok {e : Json} {t : Json × Json × Json}
    (h : event_fields e = Except.ok t) :
    t = (pyGetD e "name", pyGetD e "id", pyGetD e "url") := by
  cases e with
  | obj kvs => exact (Except.ok.inj h).symm
  | null => exact Except.noConfusion h
  | bool b => exact Except.noConfusion h
  | num n => exact Except.noConfusion h
  | str s => exact Except.noConfusion h
  | arr xs => exact Except.noConfusion h

theorem pydStr_error {j : Json} {e : PyError} (h : pydStr j = Except.error e) :
    ∃ m, e = PyError.validationError m := by
  cases j with
  | null => exact ⟨_, (Except.error.inj h).symm⟩
  | arr xs => exact ⟨_, (Except.error.inj h).symm⟩
  | obj kvs => exact ⟨_, (Except.error.inj h).symm⟩
  | str s => exact Except.noConfusion h
  | num n => exact Except.noConfusion h
  | bool b => exact Except.noConfusion h

theorem pydOptStr_error {j : Json} {e : PyError} (h : pydOptStr j = Except.error e) :
    ∃ m, e = PyError.validationError m := by
  cases j with
  | null => exact Except.noConfusion h
  | arr xs => exact ⟨_, (Except.error.inj h).symm⟩
  | obj kvs => exact ⟨_, (Except.error.inj h).symm⟩
  | str s => exact Except.noConfusion h
  | num n => exact Except.noConfusion h
  | bool b => exact Except.noConfusion h

theorem validate_event_ok {t : Json × Json × Json} {s : Event}
    (h : validate_event t = Except.ok s) :
    pydOptStr t.1 = Except.ok s.name ∧ pydStr t.2.1 = Except.ok s.id ∧
      pydOptStr t.2.2 = Except.ok s.url := by
  unfold validate_event at h
  cases hn : pydOptStr t.1 with
  | error e => simp only [hn] at h; exact Except.noConfusion h
  | ok name =>
    simp only [hn] at h
    cases hi : pydStr t.2.1 with
    | error e => simp only [hi] at h; exact Except.noConfusion h
    | ok idv =>
      simp only [hi] at h
      cases hu : pydOptStr t.2.2 with
      | error e => simp only [hu] at h; exact Except.noConfusion h
      | ok url =>
        simp only [hu] at h
        injection h with h
        subst h
        exact ⟨rfl, rfl, rfl⟩

theorem validate_event_error_valid {t : Json × Json × Json} {e : PyError}
    (h : validate_event t = Except.error e) :
    ∃ m, e = PyError.validationError m := by
  unfold validate_event at h
  cases hn : pydOptStr t.1 with
  | error e0 =>
    simp only [hn] at h
    obtain ⟨m, hm⟩ := pydOptStr_error hn
    exact ⟨m, (Except.error.inj h) ▸ hm⟩
  | ok name =>
    simp only [hn] at h
    cases hi : pydStr t.2.1 with
    | error e0 =>
      simp only [hi] at h
      obtain ⟨m, hm⟩ := pydStr_error hi
      exact ⟨m, (Except.error.inj h) ▸ hm⟩
    | ok idv =>
      simp only [hi] at h
      cases hu : pydOptStr t.2.2 with
      | error e0 =>
        simp only [hu] at h
        obtain ⟨m, hm⟩ := pydOptStr_error hu
        exact ⟨m, (Except.error.inj h) ▸ hm⟩
      | ok url => simp only [hu] at h; exact Except.noConfusion h

theorem validate_event_null_id {t : Json × Json × Json} (h : t.2.1 = Json.null) :
    ∃ m, validate_event t = Except.error (PyError.validationError m) := by
  unfold validate_event
  cases hn : pydOptStr t.1 with
  | error e =>
    obtain ⟨m, hm⟩ := pydOptStr_error hn
    exact ⟨m, by simp only [hn, hm]⟩
  | ok name =>
    refine ⟨"none is not an allowed value", ?_⟩
    simp only [hn]
    rw [h]
    rfl

theorem validate_links_ok {u : String} {l : Links}
    (h : validate_links u = Except.ok l) : l = ⟨u⟩ := by
  unfold validate_links at h
  split at h
  · exact (Except.ok.inj h).symm
  · exact Except.noConfusion h

theorem validate_links_error {u : String} {e : PyError}
    (h : validate_links u = Except.error e) : ∃ m, e = PyError.validationError m := by
  unfold validate_links at h
  split at h
  · exact Except.noConfusion h
  · exact ⟨_, (Except.error.inj h).symm⟩

theorem embeddedEvents_chain {j : Json} {items : List Json}
    (h : embeddedEvents j = some items) :
    ∃ emb, pyIndex j "_embedded" = Except.ok emb ∧
      pyIndex emb "events" = Except.ok (Json.arr items) := by
  unfold embeddedEvents at h
  cases h1 : Json.lookup j "_embedded" with
  | none => simp only [h1] at h; exact Option.noConfusion h
  | some emb =>
    simp only [h1] at h
    cases h2 : Json.lookup emb "events" with
    | none => simp only [h2] at h; exact Option.noConfusion h
    | some evs =>
      simp only [h2] at h
      cases evs with
      | arr its =>
        have h3 := Option.some.inj h
        subst h3
        exact ⟨emb, pyIndex_ok_iff.mpr h1, pyIndex_ok_iff.mpr h2⟩
      | null => exact Option.noConfusion h
      | bool b => exact Option.noConfusion h
      | num n => exact Option.noConfusion h
      | str s => exact Option.noConfusion h
      | obj kvs => exact Option.noConfusion h

theorem construct_response_ok_inv {u : String} {j : Json} {out : OutputModel}
    (h : construct_response u j = Except.ok out) :
    ∃ emb evs items raws,
      pyIndex j "_embedded" = Except.ok emb ∧ pyIndex emb "events" = Except.ok evs ∧
      pyIter evs = Except.ok items ∧ mapExcept event_fields items = Except.ok raws ∧
      validate_links u = Except.ok out.links ∧
      mapExcept validate_event raws = Except.ok out.events := by
  unfold construct_response at h
  cases h1 : pyIndex j "_embedded" with
  | error e => simp only [h1] at h; exact Except.noConfusion h
  | ok emb =>
    simp only [h1] at h
    cases h2 : pyIndex emb "events" with
    | error e => simp only [h2] at h; exact Except.noConfusion h
    | ok evs =>
      simp only [h2] at h
      cases h3 : pyIter evs with
      | error e => simp only [h3] at h; exact Except.noConfusion h
      | ok items =>
        simp only [h3] at h
        cases h4 : mapExcept event_fields items with
        | error e => simp only [h4] at h; exact Except.noConfusion h
        | ok raws =>
          simp only [h4] at h
          cases h5 : validate_links u with
          | error e => simp only [h5] at h; exact Except.noConfusion h
          | ok links =>
            simp only [h5] at h
            cases h6 : mapExcept validate_event raws with
            | error e => simp only [h6] at h; exact Except.noConfusion h
            | ok events =>
              simp only [h6] at h
              injection h with h
              subst h
              exact ⟨emb, evs, items, raws, rfl, h2, h3, h4, rfl, h6⟩

theorem construct_response_self {u : String} {j : Json} {out : OutputModel}
    (h : construct_response u j = Except.ok out) : out.links.self = u := by
  obtain ⟨emb, evs, items, raws, h1, h2, h3, h4, h5, h6⟩ := construct_response_ok_inv h
  rw [validate_links_ok h5]

theorem find?_concat_false {α : Type} (p : α → Bool) (a : α) (h : p a = false)
    (l : List α) : List.find? p (l ++ [a]) = List.find? p l := by
  rw [List.find?_append]
  have h1 : List.find? p [a] = none := by
    simp [List.find?, h]
  rw [h1, Option.or_none]

theorem validate_query_snoc (q : List (String × String)) (v : String) :
    validate_query (q ++ [("search_id", v)]) = validate_query q := by
  unfold validate_query
  rw [find?_concat_false (fun p : String × String => p.1 = "api_key") ("search_id", v) rfl q,
    find?_concat_false (fun p : String × String => p.1 = "city") ("search_id", v) rfl q,
    find?_concat_false (fun p : String × String => p.1 = "postal_code") ("search_id", v) rfl q]

/-- Claim C8: every invocation of GET /health_check returns status 200 with a
body whose status field is pass, regardless of the upstream oracle, the
request URL and the query string. -/
theorem c8_health_check_always_pass :
    ∀ (net : String → UpstreamResponse) (u : String) (q : List (String × String)),
      app_handle net ⟨"/health_check", u, q⟩ =
        ⟨200, Json.obj [("status", Json.str "pass")]⟩ :=
  fun _ _ _ => rfl

/-- Claim C10: calling the upstream client with postal_code equal to the
empty string builds the same URL as calling it with postal_code absent; the
Python truthiness test treats the empty string as not supplied. -/
theorem c10_empty_postal_code_not_appended :
    ∀ a c, ticketmaster_url a c (some "") = ticketmaster_url a c none :=
  fun _ _ => rfl

/-- Claim C6: the upstream client issues a GET against the discovery endpoint
whose URL carries apikey and city; postalCode is appended exactly for a
supplied (non-empty) postal code; the raw upstream response comes back
unmodified. -/
theorem c6_upstream_url_construction (net : String → UpstreamResponse)
    (a c : String) (pc : Option String) (s : String) (hs : s ≠ "") :
    get_events_from_ticketmaster net a c pc = net (ticketmaster_url a c pc) ∧
    ticketmaster_url a c none =
      TICKETMASTER_DISCOVERY ++ "?apikey=" ++ a ++ "&city=" ++ c ∧
    ticketmaster_url a c (some s) =
      TICKETMASTER_DISCOVERY ++ "?apikey=" ++ a ++ "&city=" ++ c ++ "&postalCode=" ++ s := by
  refine ⟨rfl, rfl, ?_⟩
  simp only [ticketmaster_url]
  rw [if_neg hs]

theorem c6_upstream_url_construction_witness :
    get_events_from_ticketmaster netNullW "key1" "Boston" (some "02118") =
      netNullW (ticketmaster_url "key1" "Boston" (some "02118")) ∧
    ticketmaster_url "key1" "Boston" none =
      TICKETMASTER_DISCOVERY ++ "?apikey=" ++ "key1" ++ "&city=" ++ "Boston" ∧
    ticketmaster_url "key1" "Boston" (some "02118") =
      TICKETMASTER_DISCOVERY ++ "?apikey=" ++ "key1" ++ "&city=" ++ "Boston" ++ "&postalCode=" ++ "02118" :=
  c6_upstream_url_construction netNullW "key1" "Boston" (some "02118") "02118" (by decide)

/-- Claim C1 is a code bug: the route decorator of get_city_events declares a
401 response (Invalid APIKey), and the spec requires the upstream fault body
to be passed through with status 401, but the handler never inspects the
upstream status code: on an upstream 401 fault body it calls
construct_response, whose subscript on the absent _embedded key raises
KeyError, surfacing as a generic 500 — not a 401 passthrough. -/
theorem c1_upstream_401_crashes_with_500 :
    401 ∈ city_events_declared_statuses ∧
    construct_response "http://h/ce" fault_body = Except.error (PyError.keyError "_embedded") ∧
    app_handle net401
        ⟨"/city_events/", "http://h/ce", [("api_key", "bad"), ("city", "Boston")]⟩ =
      ⟨500, Json.str "Internal Server Error"⟩ :=
  ⟨by decide, rfl, rfl⟩

/-- Claim C2 counterexample: on an upstream body with no _embedded key (the
shape Ticketmaster returns when it finds no events), construct_response does
not produce a response with an empty events list — it raises KeyError. -/
theorem c2_absent_embedded_counterexample :
    construct_response "http://h/ce" (Json.obj [("page", Json.num 0)]) =
      Except.error (PyError.keyError "_embedded") :=
  rfl

/-- Claim C2 as amended: for every upstream JSON object in which the
embedded-events collection is absent (no _embedded key, or an _embedded
object with no events key), construct_response raises KeyError — the request
fails — instead of producing a response with an empty or absent events
list. -/
theorem c2_absent_embedded_raises_keyerror (u : String) (kvs : List (String × Json)) :
    (lookupKV kvs "_embedded" = none →
      construct_response u (Json.obj kvs) = Except.error (PyError.keyError "_embedded")) ∧
    (∀ ekvs, lookupKV kvs "_embedded" = some (Json.obj ekvs) →
      lookupKV ekvs "events" = none →
      construct_response u (Json.obj kvs) = Except.error (PyError.keyError "events")) := by
  constructor
  · intro h0
    unfold construct_response pyIndex
    simp only [h0]
  · intro ekvs h0 h1
    unfold construct_response pyIndex
    simp only [h0, h1]

theorem c2_absent_embedded_raises_keyerror_witness :
    construct_response "http://h/ce" (Json.obj []) =
      Except.error (PyError.keyError "_embedded") ∧
    construct_response "http://h/ce" (Json.obj [("_embedded", Json.obj [])]) =
      Except.error (PyError.keyError "events") :=
  ⟨(c2_absent_embedded_raises_keyerror "http://h/ce" []).1 rfl,
   (c2_absent_embedded_raises_keyerror "http://h/ce" [("_embedded", Json.obj [])]).2 [] rfl rfl⟩

/-- Claim C7 counterexample: get_city_events declares no search_id query
parameter at all — the declared parameters are exactly api_key, city and
postal_code. -/
theorem c7_search_id_not_declared :
    List.find? (fun p => p.1 = "search_id") city_events_query_params = none :=
  rfl

/-- Claim C7 as amended: the endpoint does not declare a search_id parameter;
still, a request supplying search_id (with any value, integer or not) is
processed exactly as the same request without it, because parameters that are
not declared are ignored. -/
theorem c7_search_id_ignored :
    List.find? (fun p => p.1 = "search_id") city_events_query_params = none ∧
    ∀ (net : String → UpstreamResponse) (u v : String) (q : List (String × String)),
      app_handle net ⟨"/city_events/", u, q ++ [("search_id", v)]⟩ =
        app_handle net ⟨"/city_events/", u, q⟩ := by
  refine ⟨rfl, ?_⟩
  intro net u v q
  have h1 : app_handle net ⟨"/city_events/", u, q ++ [("search_id", v)]⟩ =
      city_events_endpoint net u (q ++ [("search_id", v)]) := rfl
  have h2 : app_handle net ⟨"/city_events/", u, q⟩ = city_events_endpoint net u q := rfl
  rw [h1, h2]
  unfold city_events_endpoint
  rw [validate_query_snoc]

/-- Claim C5: a request to /city_events/ missing the required city or api_key
parameter yields a 422 response whose body is a detail list holding one
message object, and the message text is non-empty.  Parameter validation is
the framework layer (validate_query); the body shape is produced by
handle_central_exception from src/app.py. -/
theorem c5_missing_required_param_422 (net : String → UpstreamResponse)
    (u : String) (q : List (String × String))
    (h : List.find? (fun p => p.1 = "api_key") q = none ∨
      List.find? (fun p => p.1 = "city") q = none) :
    ∃ m, app_handle net ⟨"/city_events/", u, q⟩ =
        ⟨422, Json.obj [("detail", Json.arr [Json.obj [("msg", Json.str m)]])]⟩ ∧
      m ≠ "" := by
  have happ : app_handle net ⟨"/city_events/", u, q⟩ = city_events_endpoint net u q := rfl
  rcases h with h | h
  · refine ⟨"api_key: field required", ?_, by decide⟩
    rw [happ]
    unfold city_events_endpoint validate_query
    simp only [h]
    rfl
  · cases hak : List.find? (fun p => p.1 = "api_key") q with
    | none =>
      refine ⟨"api_key: field required", ?_, by decide⟩
      rw [happ]
      unfold city_events_endpoint validate_query
      simp only [hak]
      rfl
    | some a =>
      refine ⟨"city: field required", ?_, by decide⟩
      rw [happ]
      unfold city_events_endpoint validate_query
      simp only [hak, h]
      rfl

theorem c5_missing_required_param_422_witness :
    ∃ m, app_handle netNullW ⟨"/city_events/", "http://h/ce", [("city", "Boston")]⟩ =
        ⟨422, Json.obj [("detail", Json.arr [Json.obj [("msg", Json.str m)]])]⟩ ∧
      m ≠ "" :=
  c5_missing_required_param_422 netNullW "http://h/ce" [("city", "Boston")] (Or.inl rfl)

/-- Claim C3: whenever /city_events/ answers 200, the links object of the
response body carries a self field equal to the literal URL of the inbound
request. -/
theorem c3_self_link_eq_request_url (net : String → UpstreamResponse)
    (u : String) (q : List (String × String)) (body : Json)
    (h : app_handle net ⟨"/city_events/", u, q⟩ = ⟨200, body⟩) :
    Json.lookup body "links" = some (Json.obj [("self", Json.str u)]) := by
  have happ : app_handle net ⟨"/city_events/", u, q⟩ = city_events_endpoint net u q := rfl
  rw [happ] at h
  unfold city_events_endpoint at h
  cases hv : validate_query q with
  | error e =>
    cases e with
    | validationError m =>
      simp only [hv] at h
      unfold handle_central_exception at h
      injection h with hs hb
      exact absurd hs (by decide)
    | keyError k =>
      simp only [hv] at h
      unfold serverError at h
      injection h with hs hb
      exact absurd hs (by decide)
    | typeError m =>
      simp only [hv] at h
      unfold serverError at h
      injection h with hs hb
      exact absurd hs (by decide)
    | attributeError m =>
      simp only [hv] at h
      unfold serverError at h
      injection h with hs hb
      exact absurd hs (by decide)
  | ok t =>
    obtain ⟨a, c, pc⟩ := t
    simp only [hv] at h
    cases hg : get_city_events net u a c pc with
    | error e =>
      cases e with
      | validationError m =>
        simp only [hg] at h
        unfold handle_central_exception at h
        injection h with hs hb
        exact absurd hs (by decide)
      | keyError k =>
        simp only [hg] at h
        unfold serverError at h
        injection h with hs hb
        exact absurd hs (by decide)
      | typeError m =>
        simp only [hg] at h
        unfold serverError at h
        injection h with hs hb
        exact absurd hs (by decide)
      | attributeError m =>
        simp only [hg] at h
        unfold serverError at h
        injection h with hs hb
        exact absurd hs (by decide)
    | ok out =>
      simp only [hg] at h
      injection h with hs hb
      subst hb
      unfold get_city_events at hg
      have hself : out.links.self = u := construct_response_self hg
      show Json.lookup (OutputModel.toJson out) "links" =
        some (Json.obj [("self", Json.str u)])
      rw [← hself]
      rfl

theorem c3_self_link_eq_request_url_witness :
    app_handle netOkW ⟨"/city_events/", "http://h/ce", [("api_key", "k"), ("city", "c")]⟩ =
      ⟨200, wBody200⟩ ∧
    Json.lookup wBody200 "links" = some (Json.obj [("self", Json.str "http://h/ce")]) :=
  ⟨rfl, c3_self_link_eq_request_url netOkW "http://h/ce"
    [("api_key", "k"), ("city", "c")] wBody200 rfl⟩

/-- Claim C9: an EventSummary always carries a required string id (the Event
model of src/app.py declares id without a default); when every upstream event
is an object and some upstream event lacks an id (or its id is null),
construct_response fails with a pydantic ValidationError instead of emitting
an event without an id. -/
theorem c9_missing_id_fails_validation (u : String) (j : Json) (items : List Json)
    (hj : embeddedEvents j = some items)
    (hobj : ∀ e ∈ items, ∃ kvs, e = Json.obj kvs)
    (hmiss : ∃ e ∈ items, pyGetD e "id" = Json.null) :
    ∃ m, construct_response u j = Except.error (PyError.validationError m) := by
  obtain ⟨emb, h1, h2⟩ := embeddedEvents_chain hj
  have h3 : pyIter (Json.arr items) = Except.ok items := rfl
  have hfa : ∀ e ∈ items, ∃ t, event_fields e = Except.ok t := by
    intro e he
    obtain ⟨kvs, rfl⟩ := hobj e he
    exact ⟨_, rfl⟩
  obtain ⟨raws, h4⟩ := mapExcept_all_ok hfa
  obtain ⟨e0, he0, hid⟩ := hmiss
  obtain ⟨t0, ht0mem, ht0⟩ := mapExcept_ok_mem h4 he0
  have ht0id : t0.2.1 = Json.null := by
    rw [event_fields_ok ht0]
    exact hid
  obtain ⟨m0, hbad⟩ := validate_event_null_id ht0id
  cases h6 : mapExcept validate_event raws with
  | ok evs =>
    exfalso
    obtain ⟨s, hsmem, hs⟩ := mapExcept_ok_mem h6 ht0mem
    rw [hbad] at hs
    exact Except.noConfusion hs
  | error e2 =>
    obtain ⟨z, hzmem, hz⟩ := mapExcept_error h6
    obtain ⟨m, hm⟩ := validate_event_error_valid hz
    subst hm
    cases h5 : validate_links u with
    | error e3 =>
      obtain ⟨m3, hm3⟩ := validate_links_error h5
      subst hm3
      exact ⟨m3, by unfold construct_response; simp only [h1, h2, h3, h4, h5]⟩
    | ok links =>
      exact ⟨m, by unfold construct_response; simp only [h1, h2, h3, h4, h5, h6]⟩

theorem c9_missing_id_fails_validation_witness :
    embeddedEvents wBadBody = some wBadItems ∧
    (∃ m, construct_response "http://h/ce" wBadBody =
      Except.error (PyError.validationError m)) :=
  ⟨rfl, c9_missing_id_fails_validation "http://h/ce" wBadBody wBadItems rfl
    (by intro e he; simp [wBadItems] at he; subst he; exact ⟨_, rfl⟩)
    ⟨Json.obj [("name", Json.str "NoIdEvent")], by simp [wBadItems], rfl⟩⟩

/-- Claim C4: when the upstream body carries an embedded events list and the
translation succeeds, the events are mapped one-to-one in order; for each
position, an upstream string id passes through exactly, and name and url pass
through exactly when present upstream (a string), and are absent in the
summary when absent or null upstream.  The Event model has no other fields,
so nothing else is kept. -/
theorem c4_events_mapped_in_order (u : String) (j : Json) (items : List Json)
    (out : OutputModel) (hj : embeddedEvents j = some items)
    (hok : construct_response u j = Except.ok out) :
    out.events.length = items.length ∧
    ∀ i (h1 : i < items.length) (h2 : i < out.events.length),
      (∀ v, pyGetD (items.get ⟨i, h1⟩) "id" = Json.str v →
        (out.events.get ⟨i, h2⟩).id = v) ∧
      (∀ v, pyGetD (items.get ⟨i, h1⟩) "name" = Json.str v →
        (out.events.get ⟨i, h2⟩).name = some v) ∧
      (pyGetD (items.get ⟨i, h1⟩) "name" = Json.null →
        (out.events.get ⟨i, h2⟩).name = none) ∧
      (∀ v, pyGetD (items.get ⟨i, h1⟩) "url" = Json.str v →
        (out.events.get ⟨i, h2⟩).url = some v) ∧
      (pyGetD (items.get ⟨i, h1⟩) "url" = Json.null →
        (out.events.get ⟨i, h2⟩).url = none) := by
  obtain ⟨emb, evs, items0, raws, h1, h2, h3, h4, h5, h6⟩ := construct_response_ok_inv hok
  obtain ⟨emb0, g1, g2⟩ := embeddedEvents_chain hj
  have hemb : emb = emb0 := Except.ok.inj (h1.symm.trans g1)
  subst hemb
  have hevs : evs = Json.arr items := Except.ok.inj (h2.symm.trans g2)
  subst hevs
  have hitems : items0 = items := (Except.ok.inj h3).symm
  subst hitems
  obtain ⟨hl4, hp4⟩ := mapExcept_ok h4
  obtain ⟨hl6, hp6⟩ := mapExcept_ok h6
  constructor
  · omega
  · intro i hi1 hi2
    have hiR : i < raws.length := by omega
    have hf := hp4 i hi1 hiR
    have hval := hp6 i hiR hi2
    have ht := event_fields_ok hf
    rw [ht] at hval
    obtain ⟨hn, hid, hu⟩ := validate_event_ok hval
    refine ⟨?_, ?_, ?_, ?_, ?_⟩
    · intro v hveq
      rw [hveq] at hid
      exact (Except.ok.inj hid).symm
    · intro v hveq
      rw [hveq] at hn
      exact (Except.ok.inj hn).symm
    · intro hveq
      rw [hveq] at hn
      exact (Except.ok.inj hn).symm
    · intro v hveq
      rw [hveq] at hu
      exact (Except.ok.inj hu).symm
    · intro hveq
      rw [hveq] at hu
      exact (Except.ok.inj hu).symm

theorem c4_events_mapped_in_order_witness :
    embeddedEvents wBody = some wItems ∧
    construct_response "http://h/ce" wBody = Except.ok wOut ∧
    wOut.events.length = wItems.length ∧
    (wOut.events.get ⟨0, by decide⟩).id = "e1" ∧
    (wOut.events.get ⟨1, by decide⟩).name = none :=
  ⟨rfl, rfl,
   (c4_events_mapped_in_order "http://h/ce" wBody wItems wOut rfl rfl).1,
   ((c4_events_mapped_in_order "http://h/ce" wBody wItems wOut rfl rfl).2
      0 (by decide) (by decide)).1 "e1" rfl,
   (((c4_events_mapped_in_order "http://h/ce" wBody wItems wOut rfl rfl).2
      1 (by decide) (by decide)).2.2.1) rfl⟩
